import Mathlib

/-!
Shallow embedding of the analytics engine of `src/bot.py` (class
`BehaviorAnalysisBot`), together with theorems settling the frozen claims
about it.

Modelling conventions:
* Python strings are `List Char`; `str.lower` is `pyLower` (ASCII case
  folding, which agrees with Python on the ASCII keywords the engine uses);
  the Python operators `sub in s` and `s.count(sub)` are `strContains` and
  `strCount` (`str.count` counts non-overlapping occurrences left to right).
* Machine floats of the source hold sentiment polarities and averages; they
  are modelled as `ℚ`.
* SQL timestamps are seconds (`Int`) on a local clock whose epoch falls on a
  midnight, so `strftime(%H)` is `msgHour` and `DATE(...)` is `dateIdx`.
* A user's stored history is a `List MsgRecord` in insertion (chronological)
  order; a `SELECT ... ORDER BY timestamp DESC LIMIT n` window is therefore
  `(msgs.reverse).take n`, and the report functions that the source feeds
  such a window take it as an argument, newest record first.
* The TextBlob sentiment primitive is an opaque parameter
  `prim : List Char → ℚ × ℚ` returning (polarity, subjectivity).
* The handlers' Markdown rendering is not modelled; each report function
  returns the record of values the source interpolates into its text, and
  the guard failures (`return` after an apology message) are `Except.error`
  carrying that message.
-/

/-- Equality of `Except` results is decidable when both component types
have decidable equality (used to evaluate report results concretely). -/
instance exceptDecEq {ε α : Type} [DecidableEq ε] [DecidableEq α] :
    DecidableEq (Except ε α)
  | .error e, .error f =>
    if h : e = f then isTrue (by rw [h])
    else isFalse (by intro hh; injection hh; contradiction)
  | .error _, .ok _ => isFalse (by intro h; exact Except.noConfusion h)
  | .ok _, .error _ => isFalse (by intro h; exact Except.noConfusion h)
  | .ok x, .ok y =>
    if h : x = y then isTrue (by rw [h])
    else isFalse (by intro hh; injection hh; contradiction)

/-- Python `str.lower` restricted to ASCII, applied character-wise
(`Char.toLower` folds exactly the basic latin letters). -/
def pyLower (s : List Char) : List Char := s.map Char.toLower

/-- Python `sub in s` substring test: `sub` occurs contiguously in `s`.
An empty `sub` is contained in every string, as in Python. -/
def strContains : List Char → List Char → Bool
  | [], sub => sub.isEmpty
  | c :: rest, sub => List.isPrefixOf sub (c :: rest) || strContains rest sub

/-- Auxiliary scan for `strCount`: counts non-overlapping occurrences of a
non-empty `sub`, advancing past each match, as Python `str.count` does. -/
def strCountAux : List Char → List Char → Nat
  | [], _ => 0
  | c :: rest, sub =>
    if List.isPrefixOf sub (c :: rest) then
      1 + strCountAux (List.drop (sub.length - 1) rest) sub
    else
      strCountAux rest sub
termination_by t _ => t.length
decreasing_by
  · simp only [List.length_drop, List.length_cons]; omega
  · simp only [List.length_cons]; omega

/-- Python `s.count(sub)`: non-overlapping occurrences of `sub` in `s`
(`t.length + 1` when `sub` is empty, as in Python). -/
def strCount (t sub : List Char) : Nat :=
  if sub.isEmpty then t.length + 1 else strCountAux t sub

/-- bot.py line 34: keyword list of the `extraversion` trait. -/
def extraversion_keywords : List (List Char) :=
  ["party", "friends", "social", "outgoing", "energy", "talk", "people"].map String.toList

/-- bot.py line 35: keyword list of the `openness` trait. -/
def openness_keywords : List (List Char) :=
  ["creative", "art", "new", "explore", "imagination", "curious", "different"].map String.toList

/-- bot.py line 36: keyword list of the `conscientiousness` trait. -/
def conscientiousness_keywords : List (List Char) :=
  ["organized", "plan", "schedule", "work", "goal", "discipline", "complete"].map String.toList

/-- bot.py line 37: keyword list of the `agreeableness` trait. -/
def agreeableness_keywords : List (List Char) :=
  ["help", "kind", "support", "care", "team", "cooperation", "please"].map String.toList

/-- bot.py line 38: keyword list of the `neuroticism` trait. -/
def neuroticism_keywords : List (List Char) :=
  ["stress", "worry", "anxious", "nervous", "fear", "sad", "upset"].map String.toList

/-- bot.py lines 33-39: `self.personality_indicators`, in declaration order
(Python dicts preserve insertion order). -/
def personality_indicators : List (String × List (List Char)) :=
  [("extraversion", extraversion_keywords),
   ("openness", openness_keywords),
   ("conscientiousness", conscientiousness_keywords),
   ("agreeableness", agreeableness_keywords),
   ("neuroticism", neuroticism_keywords)]

/-- bot.py line 42: `self.stress_keywords` (the fourth entry is the source
string with an apostrophe, written here with an escape). -/
def stress_keywords : List (List Char) :=
  ["deadline", "pressure", "overwhelmed", "can\x27t", "too much", "tired", "exhausted"].map
    String.toList

/-- Result record of `analyze_sentiment` (bot.py lines 130-135). -/
structure SentimentResult where
  polarity : ℚ
  subjectivity : ℚ
  mood : String
  confidence : ℚ
deriving DecidableEq

/-- bot.py lines 116-135, `analyze_sentiment`: TextBlob is the opaque
primitive `prim` returning (polarity, subjectivity) for a text. -/
def analyze_sentiment (prim : List Char → ℚ × ℚ) (text : List Char) : SentimentResult :=
  let polarity := (prim text).1
  let subjectivity := (prim text).2
  let mood :=
    if polarity > 1/10 then "Positive 😊"
    else if polarity < -(1/10) then "Negative 😟"
    else "Neutral 😐"
  { polarity := polarity, subjectivity := subjectivity, mood := mood,
    confidence := |polarity| }

/-- bot.py line 160: the number of stress keywords occurring in the
lower-cased text (`sum(1 for keyword in self.stress_keywords if keyword in
text_lower)`), i.e. each keyword contributes at most once. -/
def stressKeywordCount (text : List Char) : Nat :=
  (stress_keywords.filter (fun k => strContains (pyLower text) k)).length

/-- bot.py lines 157-170, `detect_stress_level`: returns the pair
(level, category string). -/
def detect_stress_level (text : List Char) : Nat × String :=
  let stress_level := min (stressKeywordCount text * 2) 10
  if stress_level ≥ 7 then (stress_level, "High Stress 🔴")
  else if stress_level ≥ 4 then (stress_level, "Moderate Stress 🟡")
  else (stress_level, "Low Stress 🟢")

/-- bot.py lines 137-155, `analyze_personality`, applied to the window of
message texts the SQL query returns (most recent 50, newest first): each
text is lower-cased, the texts are joined with single spaces, and each
trait scores `min(raw * 5, 100)` where `raw` sums `str.count` over the
trait's keywords. -/
def analyze_personality (window : List (List Char)) : List (String × Nat) :=
  let all_text := List.intercalate [' '] (window.map pyLower)
  personality_indicators.map
    (fun tk => (tk.1, min ((tk.2.map (fun k => strCount all_text k)).sum * 5) 100))

/-- The raw keyword count a trait accumulates over a window (the inner sum
of bot.py line 151). -/
def trait_raw_count (window : List (List Char)) (keywords : List (List Char)) : Nat :=
  (keywords.map (fun k => strCount (List.intercalate [' '] (window.map pyLower)) k)).sum

/-- A stored row of the `messages` table (bot.py lines 61-71): text,
persisted sentiment polarity, timestamp and word count. -/
structure MsgRecord where
  text : List Char
  polarity : ℚ
  timestamp : Int
  word_count : Nat
deriving DecidableEq

/-- The values `mood_analysis` (bot.py lines 249-308) interpolates into its
report text. -/
structure MoodReport where
  current_mood : String
  current_stress : String
  current_stress_level : Nat
  intensity : ℚ
  avg_sentiment : ℚ
  trend : String
  analyzed_count : Nat
  recommendations : List String
deriving DecidableEq

/-- bot.py lines 294-306: the recommendation lines a mood report appends,
in order (threshold block on the window average, then the stress note). -/
def mood_recommendations (avg : ℚ) (stress_level : Nat) : List String :=
  (if avg < -(3/10) then
    ["• Consider talking to someone you trust", "• Try some relaxation techniques"]
  else if avg > 3/10 then
    ["• Great positive energy! Keep it up!", "• You seem to be in a good mental space"]
  else
    ["• Your mood seems balanced", "• Continue monitoring your emotional patterns"]) ++
  (if stress_level > 5 then ["• High stress detected - take breaks when possible"] else [])

/-- bot.py lines 249-308, `mood_analysis`: `window` is the query result of
lines 255-260 (the user's most recent 20 messages, newest first).  An empty
window returns the apology message (line 265).  `sentiments[0]` of the
source is the head's polarity and `sentiments[-1]` is the last record's
polarity; the trend test of line 271 is `len(sentiments) > 1 and
sentiments[0] > sentiments[-1]`. -/
def mood_analysis (prim : List Char → ℚ × ℚ) (window : List MsgRecord) :
    Except String MoodReport :=
  match window with
  | [] => .error "I need more messages to analyze your mood. Keep chatting with me! 😊"
  | first :: rest =>
    let sentiments := (first :: rest).map MsgRecord.polarity
    let avg_sentiment := sentiments.sum / (sentiments.length : ℚ)
    let last_sentiment :=
      ((first :: rest).getLast (List.cons_ne_nil first rest)).polarity
    let mood_trend :=
      if 1 < sentiments.length ∧ first.polarity > last_sentiment then "improving"
      else "declining"
    let current_sentiment := analyze_sentiment prim first.text
    let stress := detect_stress_level first.text
    .ok { current_mood := current_sentiment.mood,
          current_stress := stress.2,
          current_stress_level := stress.1,
          intensity := current_sentiment.confidence,
          avg_sentiment := avg_sentiment,
          trend := mood_trend,
          analyzed_count := sentiments.length,
          recommendations := mood_recommendations avg_sentiment stress.1 }

/-- The apology message of bot.py line 316. -/
def personalityErrMsg : String :=
  "I need more messages to analyze your personality. Keep chatting! 🧠"

/-- bot.py lines 310-317, `personality_analysis` up to its guard: the
scores are computed from the window of message texts, and `not
any(personality_scores.values())` (all scores zero) yields the apology;
otherwise the score set is rendered (rendering not modelled). -/
def personality_analysis (window : List (List Char)) :
    Except String (List (String × Nat)) :=
  let scores := analyze_personality window
  if scores.all (fun p => p.2 == 0) then .error personalityErrMsg
  else .ok scores

/-- SQL `DATE(timestamp)`: the calendar-day index of a timestamp (the local
epoch falls on a midnight, so flooring by 86400 seconds groups by date). -/
def dateIdx (t : Int) : Int := Int.fdiv t 86400

/-- SQL `CAST(strftime(%H, timestamp) AS INTEGER)`: the local hour. -/
def msgHour (t : Int) : Int := Int.emod (Int.fdiv t 3600) 24

/-- bot.py lines 411-415: the CASE expression assigning a time period to an
hour.  SQL `BETWEEN` is inclusive on both ends and the CASE arms are tried
in order, so hour 12 is Morning, 18 Afternoon and 22 Evening. -/
def timePeriod (hour : Int) : String :=
  if 6 ≤ hour ∧ hour ≤ 12 then "Morning"
  else if 12 ≤ hour ∧ hour ≤ 18 then "Afternoon"
  else if 18 ≤ hour ∧ hour ≤ 22 then "Evening"
  else "Night"

/-- The four time-period names, in the order the CASE expression introduces
them. -/
def periodNames : List String := ["Morning", "Afternoon", "Evening", "Night"]

/-- Number of stored messages of a user falling in a given time period
(one group of the GROUP BY of bot.py lines 410-421). -/
def bucketCount (msgs : List MsgRecord) (p : String) : Nat :=
  (msgs.filter (fun m => timePeriod (msgHour m.timestamp) == p)).length

/-- bot.py lines 410-423: the `time_patterns` query result, i.e. the
non-empty period groups with their counts, ordered by count descending
(SQL leaves the order of tied counts unspecified; this embedding resolves
ties stably in CASE declaration order). -/
def time_patterns (msgs : List MsgRecord) : List (String × Nat) :=
  List.mergeSort
    ((periodNames.map (fun p => (p, bucketCount msgs p))).filter (fun pc => decide (0 < pc.2)))
    (fun a b => decide (b.2 ≤ a.2))

/-- bot.py lines 370-380: the 7-day daily breakdown — messages of the last
seven days grouped by calendar date ascending, with per-date average
sentiment, count, and the mood emoji of line 398. -/
def weeklyBreakdown (msgs : List MsgRecord) (now : Int) : List (Int × ℚ × Nat × String) :=
  let week_ago := now - 7 * 86400
  let recent := msgs.filter (fun m => decide (week_ago < m.timestamp))
  let dates := List.mergeSort ((recent.map (fun m => dateIdx m.timestamp)).dedup)
    (fun a b => decide (a ≤ b))
  dates.map (fun d =>
    let dayMsgs := recent.filter (fun m => dateIdx m.timestamp == d)
    let avg := (dayMsgs.map MsgRecord.polarity).sum / (dayMsgs.length : ℚ)
    let emoji := if avg > 1/10 then "😊" else if avg < -(1/10) then "😟" else "😐"
    (d, avg, dayMsgs.length, emoji))

/-- The apology message of bot.py line 367. -/
def insufficientReportMsg : String :=
  "I need at least 5 messages to generate a comprehensive report. Keep chatting! 📊"

/-- The values `generate_report` (bot.py lines 353-447) interpolates into
its report text. -/
structure ComprehensiveReport where
  total : Nat
  avg_sentiment : ℚ
  avg_words : ℚ
  weekly : List (Int × ℚ × Nat × String)
  personality_highlights : List (String × Nat)
  activity : List (String × Nat × ℚ)
  most_active : Option String
  recommendations : List String
deriving DecidableEq

/-- bot.py lines 434-445: the recommendation lines of the comprehensive
report, in order. -/
def report_recommendations (avg_sentiment avg_words : ℚ) : List String :=
  (if avg_sentiment < -(2/10) then
    ["• Consider practicing gratitude or positive self-talk",
     "• Engage in activities that boost your mood"]
  else if avg_sentiment > 2/10 then
    ["• Great positive outlook! Keep it up!", "• Share your positivity with others"]
  else []) ++
  (if avg_words < 5 then
    ["• Try expressing yourself more - longer messages provide better insights"]
  else [])

/-- The texts of the user's most recent `limit` messages, newest first
(the `ORDER BY timestamp DESC LIMIT` read of bot.py lines 140-144 over a
chronologically stored history). -/
def recentTexts (msgs : List MsgRecord) (limit : Nat) : List (List Char) :=
  ((msgs.reverse).take limit).map MsgRecord.text

/-- bot.py lines 353-447, `generate_report`: `msgs` is the user's full
stored history in chronological order and `now` the current clock reading
(`datetime.now()` of line 371).  Fewer than 5 messages yield the apology
of line 367 (that path runs no writes).  Otherwise the report collects the
overall stats, the weekly breakdown, the traits scoring above 50, the
time-period activity groups with percentages, the most active period, and
the recommendations. -/
def generate_report (msgs : List MsgRecord) (now : Int) :
    Except String ComprehensiveReport :=
  if msgs.length < 5 then .error insufficientReportMsg
  else
    let total := msgs.length
    let avg_sentiment := (msgs.map MsgRecord.polarity).sum / (total : ℚ)
    let avg_words := (msgs.map (fun m => (m.word_count : ℚ))).sum / (total : ℚ)
    let personality := analyze_personality (recentTexts msgs 50)
    let patterns := time_patterns msgs
    .ok { total := total,
          avg_sentiment := avg_sentiment,
          avg_words := avg_words,
          weekly := weeklyBreakdown msgs now,
          personality_highlights := personality.filter (fun ts => decide (50 < ts.2)),
          activity := patterns.map (fun pc => (pc.1, pc.2, ((pc.2 : ℚ) / (total : ℚ)) * 100)),
          most_active := patterns.head?.map Prod.fst,
          recommendations := report_recommendations avg_sentiment avg_words }

/-- bot.py line 472: `(datetime.now() - first_msg).days + 1`; Python
`timedelta.days` floors, so this is floored elapsed whole days plus one. -/
def days_active (first now : Int) : Int := Int.fdiv (now - first) 86400 + 1

/-- Modelled from the spec: the spec describes days-active as the
"inclusive day count from first message's calendar date to now" — the
number of calendar dates from the first message's date through the current
date, inclusive.  This definition exists only to compare the spec's words
with the source's `days_active`. -/
def spec_days_active (first now : Int) : Int := dateIdx now - dateIdx first + 1

/-- SQL `MIN(timestamp)` over a non-empty history `m :: rest`. -/
def minTimestamp (m : MsgRecord) (rest : List MsgRecord) : Int :=
  rest.foldl (fun a r => min a r.timestamp) m.timestamp

/-- SQL `MAX(timestamp)` over a non-empty history `m :: rest`. -/
def maxTimestamp (m : MsgRecord) (rest : List MsgRecord) : Int :=
  rest.foldl (fun a r => max a r.timestamp) m.timestamp

/-- The values `user_stats` (bot.py lines 449-495) interpolates into its
stats text. -/
structure StatsReport where
  total : Nat
  days_active : Int
  msgs_per_day : ℚ
  avg_sentiment : ℚ
  mood_category : String
  last_message : Int
  accuracy : Nat
deriving DecidableEq

/-- bot.py lines 449-495, `user_stats`: an empty history yields the
no-data message of line 466; otherwise days-active is computed from the
earliest timestamp and the current clock reading, and the ratio, mood
category, last-message timestamp and the synthetic accuracy figure
`min(total * 5, 95)` are emitted. -/
def user_stats (msgs : List MsgRecord) (now : Int) : Except String StatsReport :=
  match msgs with
  | [] => .error "No data available yet. Start chatting to see your stats! 📊"
  | m :: rest =>
    let total := (m :: rest).length
    let avg := ((m :: rest).map MsgRecord.polarity).sum / (total : ℚ)
    let first_msg := minTimestamp m rest
    let da := days_active first_msg now
    .ok { total := total,
          days_active := da,
          msgs_per_day := (total : ℚ) / (da : ℚ),
          avg_sentiment := avg,
          mood_category :=
            if avg > 1/10 then "Positive"
            else if avg < -(1/10) then "Negative"
            else "Neutral",
          last_message := maxTimestamp m rest,
          accuracy := min (total * 5) 95 }

/-- The message of concrete scenario 1 of the spec. -/
def scenario1Text : List Char :=
  "I am so stressed and overwhelmed, the deadline is too much".toList

/-- Helper: `detect_stress_level` as a pair of its level and the category
selected by the level thresholds. -/
theorem detect_stress_level_eq (text : List Char) :
    detect_stress_level text =
      (min (stressKeywordCount text * 2) 10,
       if min (stressKeywordCount text * 2) 10 ≥ 7 then "High Stress 🔴"
       else if min (stressKeywordCount text * 2) 10 ≥ 4 then "Moderate Stress 🟡"
       else "Low Stress 🟢") := by
  simp only [detect_stress_level]
  split_ifs <;> rfl

/-- C3: for every message text the stress detector returns
`level = min(2*k, 10)` where `k` is the number of distinct stress keywords
occurring case-insensitively as substrings, with category High iff
`level ≥ 7`, Moderate iff `4 ≤ level < 7` and Low otherwise; on the text
"I am so stressed and overwhelmed, the deadline is too much" it finds 3
keywords and returns level 6, Moderate. -/
theorem c3_stress_detector :
    (∀ text : List Char,
      (detect_stress_level text).1 = min (2 * stressKeywordCount text) 10 ∧
      ((detect_stress_level text).2 = "High Stress 🔴" ↔
        7 ≤ (detect_stress_level text).1) ∧
      ((detect_stress_level text).2 = "Moderate Stress 🟡" ↔
        4 ≤ (detect_stress_level text).1 ∧ (detect_stress_level text).1 < 7) ∧
      ((detect_stress_level text).2 = "Low Stress 🟢" ↔
        (detect_stress_level text).1 < 4)) ∧
    stressKeywordCount scenario1Text = 3 ∧
    detect_stress_level scenario1Text = (6, "Moderate Stress 🟡") := by
  refine ⟨?_, by with_unfolding_all decide, by with_unfolding_all decide⟩
  intro text
  rw [detect_stress_level_eq]
  refine ⟨by rw [Nat.mul_comm], ?_, ?_, ?_⟩ <;> split_ifs with h1 h2 <;> dsimp only
  · exact iff_of_true rfl h1
  · exact iff_of_false (by decide) (by omega)
  · exact iff_of_false (by decide) (by omega)
  · exact iff_of_false (by decide) (by omega)
  · exact iff_of_true rfl (by omega)
  · exact iff_of_false (by decide) (by omega)
  · exact iff_of_false (by decide) (by omega)
  · exact iff_of_false (by decide) (by omega)
  · exact iff_of_true rfl (by omega)

/-- C10: the stress level is always one of 0, 2, 4, 6, 8, 10 (it is never
7 or 9), and the High category is returned exactly when at least 4 distinct
stress keywords are present. -/
theorem c10_stress_level_parity (text : List Char) :
    (detect_stress_level text).1 ∈ [0, 2, 4, 6, 8, 10] ∧
    ((detect_stress_level text).2 = "High Stress 🔴" ↔
      4 ≤ stressKeywordCount text) ∧
    (detect_stress_level text).1 ≠ 7 ∧ (detect_stress_level text).1 ≠ 9 := by
  rw [detect_stress_level_eq]
  refine ⟨?_, ?_, by omega, by omega⟩
  · simp only [List.mem_cons, List.not_mem_nil, or_false]
    omega
  · split_ifs with h1 h2 <;> dsimp only
    · exact iff_of_true rfl (by omega)
    · exact iff_of_false (by decide) (by omega)
    · exact iff_of_false (by decide) (by omega)

/-- C5: the sentiment scorer reports confidence equal to the absolute value
of the polarity, and classifies Positive exactly when polarity exceeds 0.1,
Negative exactly when polarity is below -0.1, Neutral otherwise — in
particular polarity exactly 0.1 or -0.1 is Neutral. -/
theorem c5_sentiment_scorer (prim : List Char → ℚ × ℚ) (text : List Char) :
    (analyze_sentiment prim text).confidence =
      |(analyze_sentiment prim text).polarity| ∧
    (analyze_sentiment prim text).polarity = (prim text).1 ∧
    ((analyze_sentiment prim text).mood = "Positive 😊" ↔ 1/10 < (prim text).1) ∧
    ((analyze_sentiment prim text).mood = "Negative 😟" ↔ (prim text).1 < -(1/10)) ∧
    ((analyze_sentiment prim text).mood = "Neutral 😐" ↔
      -(1/10) ≤ (prim text).1 ∧ (prim text).1 ≤ 1/10) ∧
    (analyze_sentiment (fun _ => (1/10, 0)) []).mood = "Neutral 😐" ∧
    (analyze_sentiment (fun _ => (-(1/10), 0)) []).mood = "Neutral 😐" := by
  refine ⟨rfl, rfl, ?_, ?_, ?_, by with_unfolding_all decide,
    by with_unfolding_all decide⟩ <;>
    simp only [analyze_sentiment] <;> split_ifs with h1 h2
  · exact iff_of_true rfl h1
  · exact iff_of_false (by decide) h1
  · exact iff_of_false (by decide) h1
  · exact iff_of_false (by decide)
      (not_lt.mpr (le_of_lt (lt_trans (by norm_num : -(1/10 : ℚ) < 1/10) h1)))
  · exact iff_of_true rfl h2
  · exact iff_of_false (by decide) h2
  · exact iff_of_false (by decide) (fun hc => absurd h1 (not_lt.mpr hc.2))
  · exact iff_of_false (by decide) (fun hc => absurd h2 (not_lt.mpr hc.1))
  · exact iff_of_true rfl ⟨not_lt.mp h2, not_lt.mp h1⟩

/-- C4: every trait score produced by the Trait Scorer equals
`min(5 * raw_count, 100)` for that trait's raw summed keyword-occurrence
count over the lower-cased space-joined window text; scores are bounded by
100, the normalization is monotone in the raw count, and it saturates at
100 from raw count 20 on. -/
theorem c4_trait_scorer (window : List (List Char)) (tk : String × List (List Char))
    (hmem : tk ∈ personality_indicators) :
    (tk.1, min (5 * trait_raw_count window tk.2) 100) ∈ analyze_personality window ∧
    (∀ p ∈ analyze_personality window, p.2 ≤ 100) ∧
    (∀ c c' : Nat, c ≤ c' → min (5 * c) 100 ≤ min (5 * c') 100) ∧
    (20 ≤ trait_raw_count window tk.2 →
      min (5 * trait_raw_count window tk.2) 100 = 100) := by
  refine ⟨?_, ?_, fun c c' h => by omega, fun h => by omega⟩
  · have h := List.mem_map_of_mem
      (fun tk : String × List (List Char) =>
        (tk.1, min ((tk.2.map (fun k =>
          strCount (List.intercalate [' '] (window.map pyLower)) k)).sum * 5) 100)) hmem
    rw [Nat.mul_comm]
    exact h
  · intro p hp
    simp only [analyze_personality, List.mem_map] at hp
    obtain ⟨a, _, rfl⟩ := hp
    exact Nat.min_le_right _ _

/-- A one-message window used to instantiate the trait-score theorem. -/
def c4window : List (List Char) := ["I love my friends and the party".toList]

/-- Witness for C4: the extraversion entry of the concrete window scores
exactly the normalized raw count. -/
theorem c4_witness :
    ("extraversion", extraversion_keywords) ∈ personality_indicators ∧
    ("extraversion", min (5 * trait_raw_count c4window extraversion_keywords) 100) ∈
      analyze_personality c4window ∧
    trait_raw_count c4window extraversion_keywords = 2 := by
  have hmem : ("extraversion", extraversion_keywords) ∈ personality_indicators := by
    simp [personality_indicators]
  exact ⟨hmem, (c4_trait_scorer c4window ("extraversion", extraversion_keywords) hmem).1,
    by with_unfolding_all decide⟩

/-- C9: the personality report answers "insufficient data" exactly when all
five trait scores are zero — in particular on an empty window — and a score
set it does present always has a non-zero entry. -/
theorem c9_personality_guard (window : List (List Char)) :
    (personality_analysis window = Except.error personalityErrMsg ↔
      ∀ p ∈ analyze_personality window, p.2 = 0) ∧
    personality_analysis [] = Except.error personalityErrMsg ∧
    (∀ scores, personality_analysis window = Except.ok scores →
      ∃ p ∈ scores, p.2 ≠ 0) := by
  refine ⟨?_, by with_unfolding_all decide, ?_⟩
  · simp only [personality_analysis]
    by_cases h : (analyze_personality window).all (fun p => p.2 == 0)
    · rw [if_pos h]
      simp only [List.all_eq_true, beq_iff_eq] at h
      exact iff_of_true rfl h
    · rw [if_neg h]
      refine iff_of_false (by simp) (fun hall => h ?_)
      rw [List.all_eq_true]
      exact fun p hp => beq_iff_eq.mpr (hall p hp)
  · intro scores hok
    simp only [personality_analysis] at hok
    by_cases h : (analyze_personality window).all (fun p => p.2 == 0)
    · rw [if_pos h] at hok
      exact absurd hok (by simp)
    · rw [if_neg h] at hok
      injection hok with h'
      subst h'
      simp only [List.all_eq_true, beq_iff_eq] at h
      push_neg at h
      obtain ⟨p, hp, hne⟩ := h
      exact ⟨p, hp, hne⟩

/-- Helper: `mood_analysis` always succeeds on a non-empty window and its
trend field is the two-point comparison of the source. -/
theorem mood_analysis_trend (prim : List Char → ℚ × ℚ) (first : MsgRecord)
    (rest : List MsgRecord) :
    ∃ r, mood_analysis prim (first :: rest) = Except.ok r ∧
      r.trend =
        (if 1 < ((first :: rest).map MsgRecord.polarity).length ∧
            first.polarity > ((first :: rest).getLast (List.cons_ne_nil first rest)).polarity
         then "improving" else "declining") :=
  ⟨_, rfl, rfl⟩

/-- C2: in a non-empty mood window (newest record first, as the source's
descending query returns it), the trend is "improving" exactly when the
chronologically oldest record's persisted polarity is strictly below the
newest record's, and "declining" otherwise; the concrete window with newest
polarity 0.4 and oldest -0.5 yields "improving". -/
theorem c2_mood_trend (prim : List Char → ℚ × ℚ) (first : MsgRecord)
    (rest : List MsgRecord) :
    (∃ r, mood_analysis prim (first :: rest) = Except.ok r ∧
      (r.trend = "improving" ↔
        ((first :: rest).getLast (List.cons_ne_nil first rest)).polarity <
          first.polarity) ∧
      (r.trend = "declining" ↔
        ¬ ((first :: rest).getLast (List.cons_ne_nil first rest)).polarity <
          first.polarity)) ∧
    Except.map MoodReport.trend
      (mood_analysis (fun _ => (0, 0))
        [⟨[], 4/10, 0, 0⟩, ⟨[], -(1/2), 0, 0⟩]) = Except.ok "improving" := by
  refine ⟨?_, by with_unfolding_all decide⟩
  obtain ⟨r, hok, htrend⟩ := mood_analysis_trend prim first rest
  refine ⟨r, hok, ?_, ?_⟩ <;> rw [htrend] <;> split_ifs with h
  · exact iff_of_true rfl h.2
  · refine iff_of_false (by decide) (fun hlt => h ⟨?_, hlt⟩)
    cases rest with
    | nil =>
      rw [List.getLast_singleton] at hlt
      exact absurd hlt (lt_irrefl _)
    | cons b bs => simp
  · exact iff_of_false (by decide) (not_not_intro h.2)
  · refine iff_of_true rfl (fun hlt => h ⟨?_, hlt⟩)
    cases rest with
    | nil =>
      rw [List.getLast_singleton] at hlt
      exact absurd hlt (lt_irrefl _)
    | cons b bs => simp

/-- C6: the comprehensive report is the "insufficient data" response
exactly for fewer than 5 stored messages, and a report value exactly from
5 on (the guard path of the source performs reads only). -/
theorem c6_report_threshold (msgs : List MsgRecord) (now : Int) :
    (generate_report msgs now = Except.error insufficientReportMsg ↔
      msgs.length < 5) ∧
    ((∃ r, generate_report msgs now = Except.ok r) ↔ 5 ≤ msgs.length) := by
  simp only [generate_report]
  by_cases h : msgs.length < 5
  · rw [if_pos h]
    exact ⟨iff_of_true rfl h,
      iff_of_false (fun ⟨r, hr⟩ => by cases hr) (by omega)⟩
  · rw [if_neg h]
    exact ⟨iff_of_false (fun hh => by cases hh) h,
      iff_of_true ⟨_, rfl⟩ (by omega)⟩

/-- Helper: the running SQL minimum of the timestamps is bounded by the
first message's timestamp. -/
theorem minTimestamp_le_self (m : MsgRecord) (rest : List MsgRecord) :
    minTimestamp m rest ≤ m.timestamp := by
  unfold minTimestamp
  induction rest generalizing m with
  | nil => exact le_refl _
  | cons r l ih =>
    calc List.foldl (fun a x => min a x.timestamp) (min m.timestamp r.timestamp) l
        ≤ min m.timestamp r.timestamp := by
          have h := ih ⟨m.text, m.polarity, min m.timestamp r.timestamp, m.word_count⟩
          simpa using h
      _ ≤ m.timestamp := min_le_left _ _

/-- C7 counterexample: a first message at 23:00 of day 0 and a clock at
01:00 of day 1 span two calendar dates, yet the source computes one day
active (it counts floored elapsed 24-hour periods, not calendar dates). -/
theorem c7_counterexample :
    days_active 82800 90000 = 1 ∧ spec_days_active 82800 90000 = 2 ∧
    days_active 82800 90000 ≠ spec_days_active 82800 90000 := by
  with_unfolding_all decide

/-- C7 amended: for a user with at least one stored message whose
timestamps do not postdate the clock, the stats report's days-active —
floored elapsed whole days plus one — is at least 1, so the
messages-per-day ratio it reports is the well-defined quotient
total / days-active. -/
theorem c7_days_active_positive (msgs : List MsgRecord) (now : Int) (r : StatsReport)
    (hok : user_stats msgs now = Except.ok r)
    (hts : ∀ m ∈ msgs, m.timestamp ≤ now) :
    1 ≤ r.days_active ∧ (r.days_active : ℚ) ≠ 0 ∧
    r.msgs_per_day = (r.total : ℚ) / (r.days_active : ℚ) := by
  cases msgs with
  | nil => exact absurd hok (by simp [user_stats])
  | cons m rest =>
    simp only [user_stats] at hok
    injection hok with h
    subst h
    have hfirst : minTimestamp m rest ≤ now :=
      le_trans (minTimestamp_le_self m rest) (hts m (List.mem_cons_self m rest))
    have hpos : 1 ≤ days_active (minTimestamp m rest) now := by
      unfold days_active
      have := Int.fdiv_nonneg (by omega : (0:Int) ≤ now - minTimestamp m rest)
        (by norm_num : (0:Int) ≤ 86400)
      omega
    refine ⟨hpos, ?_, rfl⟩
    exact_mod_cast (by omega : days_active (minTimestamp m rest) now ≠ 0)

/-- A one-message demo history for instantiating the days-active theorem. -/
def c7msgs : List MsgRecord := [⟨"hi".toList, 0, 0, 1⟩]

/-- The stats record `user_stats` produces on the demo history at clock 0. -/
def c7rep : StatsReport := ⟨1, 1, 1, 0, "Neutral", 0, 5⟩

/-- Witness for C7 amended: the demo history satisfies the hypotheses and
its days-active is at least 1. -/
theorem c7_witness :
    user_stats c7msgs 0 = Except.ok c7rep ∧ (∀ m ∈ c7msgs, m.timestamp ≤ 0) ∧
    1 ≤ c7rep.days_active := by
  have hok : user_stats c7msgs 0 = Except.ok c7rep := by with_unfolding_all decide
  have hts : ∀ m ∈ c7msgs, m.timestamp ≤ 0 := by with_unfolding_all decide
  exact ⟨hok, hts, (c7_days_active_positive c7msgs 0 c7rep hok hts).1⟩

/-- A one-message demo history for the clock-dependence counterexample. -/
def c8msgs : List MsgRecord := [⟨"hi".toList, 0, 0, 1⟩]

/-- A constant demo sentiment primitive. -/
def c8prim : List Char → ℚ × ℚ := fun _ => (0, 0)

/-- C8 counterexample: the stats report recomputed from the unchanged
one-message store differs between clock readings 0 and 86400 (days-active
1 versus 2), so a report is not a function of the stored window alone. -/
theorem c8_counterexample :
    user_stats c8msgs 0 ≠ user_stats c8msgs 86400 := by
  with_unfolding_all decide

/-- C8 amended: every report is a deterministic function of its inputs —
the stored window (and sentiment primitive), plus, for the comprehensive
and stats reports, the current clock reading: two computations from equal
inputs are identical. -/
theorem c8_report_determinism (prim prim2 : List Char → ℚ × ℚ)
    (w w2 : List MsgRecord) (texts texts2 : List (List Char))
    (msgs msgs2 : List MsgRecord) (now now2 : Int)
    (hprim : prim = prim2) (hw : w = w2) (htexts : texts = texts2)
    (hmsgs : msgs = msgs2) (hnow : now = now2) :
    mood_analysis prim w = mood_analysis prim2 w2 ∧
    personality_analysis texts = personality_analysis texts2 ∧
    generate_report msgs now = generate_report msgs2 now2 ∧
    user_stats msgs now = user_stats msgs2 now2 := by
  subst hprim hw htexts hmsgs hnow
  exact ⟨rfl, rfl, rfl, rfl⟩

/-- Witness for C8 amended, instantiated at the demo store and clock 0. -/
theorem c8_witness :
    mood_analysis c8prim c8msgs = mood_analysis c8prim c8msgs ∧
    personality_analysis [] = personality_analysis [] ∧
    generate_report c8msgs 0 = generate_report c8msgs 0 ∧
    user_stats c8msgs 0 = user_stats c8msgs 0 :=
  c8_report_determinism c8prim c8prim c8msgs c8msgs [] [] c8msgs c8msgs 0 0
    rfl rfl rfl rfl rfl

/-- Helper: the CASE expression always yields one of the four period
names. -/
theorem timePeriod_mem_periodNames (h : Int) : timePeriod h ∈ periodNames := by
  unfold timePeriod periodNames
  split_ifs <;> simp

/-- Helper: a bucket count over one more message adds the indicator of
that message's period. -/
theorem bucketCount_cons (m : MsgRecord) (msgs : List MsgRecord) (p : String) :
    bucketCount (m :: msgs) p =
      (if timePeriod (msgHour m.timestamp) == p then 1 else 0) + bucketCount msgs p := by
  simp only [bucketCount, List.filter_cons]
  split <;> simp [Nat.add_comm]

/-- Helper: the four bucket counts partition the history — they sum to the
total number of stored messages. -/
theorem sum_bucketCounts (msgs : List MsgRecord) :
    (periodNames.map (fun p => bucketCount msgs p)).sum = msgs.length := by
  induction msgs with
  | nil => rfl
  | cons m rest ih =>
    simp only [periodNames, List.map_cons, List.map_nil, List.sum_cons,
      List.sum_nil] at ih ⊢
    rw [bucketCount_cons, bucketCount_cons, bucketCount_cons, bucketCount_cons]
    have hmem := timePeriod_mem_periodNames (msgHour m.timestamp)
    simp only [periodNames, List.mem_cons, List.not_mem_nil, or_false] at hmem
    rcases hmem with h | h | h | h <;> rw [h] <;> simp <;> omega

/-- Helper: the time-pattern list is sorted by count, descending. -/
theorem time_patterns_sorted (msgs : List MsgRecord) :
    (time_patterns msgs).Pairwise (fun a b => b.2 ≤ a.2) := by
  unfold time_patterns
  refine List.Pairwise.imp (fun hab => of_decide_eq_true hab) ?_
  exact List.sorted_mergeSort
    (fun a b c h1 h2 => by
      simp only [decide_eq_true_eq] at h1 h2 ⊢
      omega)
    (fun a b => by
      simp only [Bool.or_eq_true, decide_eq_true_eq]
      omega)
    _

/-- Helper: every entry of the time-pattern list is a period name paired
with its (positive) bucket count. -/
theorem time_patterns_mem (msgs : List MsgRecord) (pc : String × Nat)
    (h : pc ∈ time_patterns msgs) :
    pc.1 ∈ periodNames ∧ pc.2 = bucketCount msgs pc.1 ∧ 0 < pc.2 := by
  unfold time_patterns at h
  rw [List.mem_mergeSort, List.mem_filter] at h
  obtain ⟨hmap, hpos⟩ := h
  rw [List.mem_map] at hmap
  obtain ⟨p, hp, rfl⟩ := hmap
  exact ⟨hp, rfl, of_decide_eq_true hpos⟩

/-- C1 counterexample: under the source's inclusive BETWEEN boundaries a
message at local hour 12 is counted as Morning (not Afternoon, as the
claim asserts), hour 18 as Afternoon and hour 22 as Evening. -/
theorem c1_counterexample :
    timePeriod 12 = "Morning" ∧ ("Morning" : String) ≠ "Afternoon" ∧
    timePeriod 18 = "Afternoon" ∧ ("Afternoon" : String) ≠ "Evening" ∧
    timePeriod 22 = "Evening" ∧ ("Evening" : String) ≠ "Night" ∧
    bucketCount [⟨"hi".toList, 0, 12 * 3600, 1⟩] "Afternoon" = 0 ∧
    bucketCount [⟨"hi".toList, 0, 12 * 3600, 1⟩] "Morning" = 1 := by
  with_unfolding_all decide

/-- C1 amended: the comprehensive report partitions all historical messages
into the four local-time buckets Morning = hours 6-12, Afternoon = 13-18,
Evening = 19-22, Night otherwise (0-5 and 23); the bucket counts sum to the
user's total, the reported activity list carries each non-empty bucket's
count with its percentage count/total*100 sorted by count descending, and
the top entry is the most-active bucket. -/
theorem c1_activity_partition :
    (∀ h : Int, 0 ≤ h → h < 24 →
      (timePeriod h = "Morning" ↔ 6 ≤ h ∧ h ≤ 12) ∧
      (timePeriod h = "Afternoon" ↔ 13 ≤ h ∧ h ≤ 18) ∧
      (timePeriod h = "Evening" ↔ 19 ≤ h ∧ h ≤ 22) ∧
      (timePeriod h = "Night" ↔ h ≤ 5 ∨ h = 23)) ∧
    (∀ msgs : List MsgRecord,
      (periodNames.map (fun p => bucketCount msgs p)).sum = msgs.length ∧
      (time_patterns msgs).Pairwise (fun a b => b.2 ≤ a.2) ∧
      (∀ pc ∈ time_patterns msgs, pc.2 = bucketCount msgs pc.1 ∧ 0 < pc.2) ∧
      (∀ pc ∈ time_patterns msgs, ∀ hd ∈ (time_patterns msgs).head?,
        pc.2 ≤ hd.2)) ∧
    (∀ msgs now r, generate_report msgs now = Except.ok r →
      r.activity = (time_patterns msgs).map
        (fun pc => (pc.1, pc.2, ((pc.2 : ℚ) / ((msgs.length : Nat) : ℚ)) * 100)) ∧
      r.most_active = (time_patterns msgs).head?.map Prod.fst) := by
  refine ⟨?_, ?_, ?_⟩
  · intro h h0 h24
    unfold timePeriod
    split_ifs with h1 h2 h3 <;>
      refine ⟨?_, ?_, ?_, ?_⟩ <;>
      first
        | exact iff_of_true rfl (by omega)
        | exact iff_of_false (by decide) (by omega)
  · intro msgs
    refine ⟨sum_bucketCounts msgs, time_patterns_sorted msgs,
      fun pc hpc => ((time_patterns_mem msgs pc hpc).2), ?_⟩
    intro pc hpc hd hhd
    cases hl : time_patterns msgs with
    | nil => rw [hl] at hhd; cases hhd
    | cons a t =>
      rw [hl] at hhd hpc
      simp only [List.head?_cons, Option.mem_def, Option.some.injEq] at hhd
      subst hhd
      have hsorted := time_patterns_sorted msgs
      rw [hl, List.pairwise_cons] at hsorted
      rcases List.mem_cons.mp hpc with h | h
      · exact le_of_eq (congrArg Prod.snd h)
      · exact hsorted.1 pc h
  · intro msgs now r h
    simp only [generate_report] at h
    split at h
    · cases h
    · injection h with h
      subst h
      exact ⟨rfl, rfl⟩

/-- A five-message demo history: two Morning messages (hour 7) and one each
at hours 14, 20 and 23, all neutral, ten words each. -/
def c1msgs : List MsgRecord :=
  [⟨"hello".toList, 0, 7 * 3600, 10⟩, ⟨"hello".toList, 0, 7 * 3600 + 60, 10⟩,
   ⟨"hello".toList, 0, 14 * 3600, 10⟩, ⟨"hello".toList, 0, 20 * 3600, 10⟩,
   ⟨"hello".toList, 0, 23 * 3600, 10⟩]

/-- A demo clock reading a month after the demo messages (so the weekly
breakdown is empty). -/
def c1now : Int := 30 * 86400

/-- The comprehensive report the source produces on the demo history. -/
def c1rep : ComprehensiveReport :=
  ⟨5, 0, 10, [], [],
   [("Morning", 2, 40), ("Afternoon", 1, 20), ("Evening", 1, 20), ("Night", 1, 20)],
   some "Morning", []⟩

/-- Witness for C1 amended: instantiates the hour characterization at 7,
the partition at the demo history (bucket counts 2/1/1/1 summing to 5), and
the report linkage at the concrete report value. -/
theorem c1_witness :
    (timePeriod 7 = "Morning" ↔ (6 : Int) ≤ 7 ∧ (7 : Int) ≤ 12) ∧
    (periodNames.map (fun p => bucketCount c1msgs p)).sum = c1msgs.length ∧
    generate_report c1msgs c1now = Except.ok c1rep ∧
    c1rep.most_active = (time_patterns c1msgs).head?.map Prod.fst := by
  have hok : generate_report c1msgs c1now = Except.ok c1rep := by
    with_unfolding_all decide
  exact ⟨(c1_activity_partition.1 7 (by decide) (by decide)).1,
    (c1_activity_partition.2.1 c1msgs).1, hok,
    (c1_activity_partition.2.2 c1msgs c1now c1rep hok).2⟩

/-- A demo window whose agreeableness keywords occur. -/
def c9window : List (List Char) := ["please help the team".toList]

/-- The trait scores the source computes on the demo window. -/
def c9scores : List (String × Nat) :=
  [("extraversion", 0), ("openness", 0), ("conscientiousness", 0),
   ("agreeableness", 15), ("neuroticism", 0)]

/-- Witness for C9: the demo window is accepted and its presented score set
has a non-zero entry. -/
theorem c9_witness :
    personality_analysis c9window = Except.ok c9scores ∧
    ∃ p ∈ c9scores, p.2 ≠ 0 := by
  have hok : personality_analysis c9window = Except.ok c9scores := by
    with_unfolding_all decide
  exact ⟨hok, (c9_personality_guard c9window).2.2 c9scores hok⟩
